import Mathlib

/-!
Verification of `scrape_ibps_jobs.py`, a single-file scraper that fetches a
recruitment page, extracts job records from listing elements with heuristic
selectors, filters and deduplicates them, and writes a CSV.

The HTML document is modelled as a tree of element and text nodes
(mirroring the BeautifulSoup parse tree).  BeautifulSoup's `find` walks the
descendants in document order (preorder) and returns the first match;
regular expressions used by the script are alternations of literal words
searched case-insensitively, modelled as case-insensitive substring tests.
-/

/-- A node of the parsed HTML tree: a text node (NavigableString) or an
element with a tag name, attributes, a multi-valued class attribute and
children. -/
inductive Node where
  | text : String → Node
  | elem : String → List (String × String) → List String → List Node → Node

/-- Python's `str.startswith`: character-level test whether `p` begins `s`. -/
def pyStartswith (s p : String) : Bool :=
  p.data.isPrefixOf s.data

/-- Python's `str.strip()`: remove leading and trailing whitespace. -/
def pyStrip (s : String) : String :=
  ⟨((s.data.dropWhile Char.isWhitespace).reverse.dropWhile Char.isWhitespace).reverse⟩

/-- Python's `str.lower()` on the characters of the string. -/
def pyLower (s : String) : String :=
  ⟨s.data.map Char.toLower⟩

/-- `p` occurs as a contiguous substring of `s` (re.search of a literal). -/
def subList (p : List Char) : List Char → Bool
  | [] => p.isEmpty
  | c :: rest => p.isPrefixOf (c :: rest) || subList p rest

/-- Substring test on strings (case-sensitive, Python `p in s`). -/
def substrOf (p s : String) : Bool := subList p.data s.data

/-- Case-insensitive substring test: `re.search` of a literal word under
`re.I`. -/
def subCI (p s : String) : Bool := substrOf (pyLower p) (pyLower s)

mutual
/-- All descendants of a node in document order (preorder), the node itself
excluded — BeautifulSoup's `.descendants`.  `find`/`find_all` return the
first/all matches of this traversal. -/
def Node.descendants : Node → List Node
  | .text _ => []
  | .elem _ _ _ children => descendantsList children

/-- Preorder traversal of a list of sibling subtrees. -/
def descendantsList : List Node → List Node
  | [] => []
  | c :: cs => c :: (Node.descendants c ++ descendantsList cs)
end

/-- Tag name of an element node, `none` for a text node. -/
def Node.tagName : Node → Option String
  | .text _ => none
  | .elem t _ _ _ => some t

/-- The class list of a node (empty for text nodes / classless elements). -/
def Node.classes : Node → List String
  | .text _ => []
  | .elem _ _ cs _ => cs

/-- Attribute lookup, `tag.get(key)`. -/
def Node.attr (n : Node) (key : String) : Option String :=
  match n with
  | .text _ => none
  | .elem _ attrs _ _ => (attrs.find? (fun kv => kv.1 = key)).map (·.2)

/-- The descendant NavigableStrings of a node in document order
(BeautifulSoup's `.strings`). -/
def Node.strings (n : Node) : List String :=
  n.descendants.filterMap fun c => match c with | .text s => some s | _ => none

/-- `tag.get_text(strip=True)`: strip each descendant string, drop the ones
that become empty, concatenate. -/
def getTextStrip (n : Node) : String :=
  String.join ((n.strings.map pyStrip).filter (fun s => !s.data.isEmpty))

/-- `element.find(name)`: first descendant element with the given tag. -/
def findTag (n : Node) (name : String) : Option Node :=
  n.descendants.find? (fun c => c.tagName = some name)

/-- A node has some class matched by the alternation-of-words regex
(each word searched case-insensitively inside the class string). -/
def classMatch (words : List String) (n : Node) : Bool :=
  n.classes.any (fun c => words.any (fun w => subCI w c))

/-- `element.find(name, class_=re.compile(w1|w2|..., re.I))`. -/
def findTagClass (n : Node) (name : String) (words : List String) : Option Node :=
  n.descendants.find? (fun c => c.tagName = some name && classMatch words c)

/-- `element.find(text=re.compile(...))`: first descendant string matching
the predicate; the result is the string itself. -/
def findString (n : Node) (p : String → Bool) : Option String :=
  (n.descendants.filterMap fun c => match c with | .text s => some s | _ => none).find? p

example :
    Node.descendants (.elem "div" [] [] [.elem "h4" [] [] [.text "Clerk"], .text "x"]) =
      [.elem "h4" [] [] [.text "Clerk"], .text "Clerk", .text "x"] := rfl

example :
    findTag (.elem "div" [] [] [.elem "h4" [] [] [.text "Clerk"]]) "h4" =
      some (.elem "h4" [] [] [.text "Clerk"]) := rfl

example : getTextStrip (.elem "h4" [] [] [.text "  Clerk  ", .text " ", .text "XI"]) = "ClerkXI" := by decide
example : subCI "title" "Job-Title-Main" = true := by decide
example : pyStartswith "/jobs" "/" = true := by decide

/-! ## The extractor (`extract_job_info`) -/

/-- Result of a `find` that may hit either a Tag or a NavigableString
(the script distinguishes them with `isinstance(..., str)`). -/
inductive Found where
  | tag : Node → Found
  | str : String → Found

/-- Words of the title-class regex `r'title|heading|name'`. -/
def titleWords : List String := ["title", "heading", "name"]

/-- Words of the location-class regex `r'location|place|city'`. -/
def locationWords : List String := ["location", "place", "city"]

/-- Words of the location-text regex `r'Location|City|Place'` (searched under
`re.I`, hence the same case-insensitive word search). -/
def locationTextWords : List String := ["Location", "City", "Place"]

/-- Words of the date-class regex `r'date|published|post'`. -/
def dateWords : List String := ["date", "published", "post"]

/-- The date-text regex (two digits, a slash-or-dash separator, two digits,
a separator, then two to four digits) matches at the head of the character
list; existence of a match needs only the first two of the trailing
digits. -/
def dateAtHead : List Char → Bool
  | a :: b :: s1 :: c :: d :: s2 :: e :: f :: _ =>
      a.isDigit && b.isDigit && (s1 = '/' || s1 = '-') &&
      c.isDigit && d.isDigit && (s2 = '/' || s2 = '-') &&
      e.isDigit && f.isDigit
  | _ => false

/-- `re.search` of the date-text regex: the pattern matches at some
position. -/
def dateSearchList : List Char → Bool
  | [] => false
  | c :: rest => dateAtHead (c :: rest) || dateSearchList rest

/-- The date-text regex searched in a string. -/
def dateTextMatch (s : String) : Bool := dateSearchList s.data

/-- The title selector chain of `extract_job_info` (lines 91-95): `h4`, then
`h3`, then `h2`, then an `a` with a title-like class, then a `span` with a
title-like class; Python's `or` keeps the first non-None result. -/
def titleElem (e : Node) : Option Node :=
  findTag e "h4" <|> findTag e "h3" <|> findTag e "h2" <|>
  findTagClass e "a" titleWords <|> findTagClass e "span" titleWords

/-- The location selector chain (lines 108-110): `span` with location-like
class, `div` with location-like class, then a text node matching
`Location|City|Place`. -/
def locationFound (e : Node) : Option Found :=
  (findTagClass e "span" locationWords).map Found.tag <|>
  (findTagClass e "div" locationWords).map Found.tag <|>
  (findString e (fun s => locationTextWords.any (fun w => subCI w s))).map Found.str

/-- The 'Location' value (lines 112-118): strings are stripped, tags yield
`get_text(strip=True)`, no match yields `'Not specified'`. -/
def locationField (e : Node) : String :=
  match locationFound e with
  | some (.tag n) => getTextStrip n
  | some (.str s) => pyStrip s
  | none => "Not specified"

/-- The date selector chain (lines 121-124): `span`/`div` with date-like
class, a `time` tag, then a text node matching the date pattern. -/
def dateFound (e : Node) : Option Found :=
  (findTagClass e "span" dateWords).map Found.tag <|>
  (findTagClass e "div" dateWords).map Found.tag <|>
  (findTag e "time").map Found.tag <|>
  (findString e dateTextMatch).map Found.str

/-- The 'Post/Publish Date' value (lines 126-135): for a matched tag the
text is taken, then overridden by a truthy (non-empty) `datetime`
attribute; a matched string is stripped; no match yields
`'Not specified'`. -/
def dateField (e : Node) : String :=
  match dateFound e with
  | some (.tag n) =>
      match n.attr "datetime" with
      | some v => if v = "" then getTextStrip n else v
      | none => getTextStrip n
  | some (.str s) => pyStrip s
  | none => "Not specified"

/-- `job_element.find('a', href=True)`: first anchor carrying an `href`
attribute. -/
def findAnchorHref (e : Node) : Option Node :=
  e.descendants.find? (fun c => c.tagName = some "a" && (c.attr "href").isSome)

/-- Link absolutization (lines 142-147): hrefs beginning with `/` get the
base URL prefixed, hrefs beginning with `http` are kept, anything else gets
`base_url + '/'` prefixed. -/
def absolutize (base link : String) : String :=
  if pyStartswith link "/" then base ++ link
  else if pyStartswith link "http" then link
  else base ++ "/" ++ link

/-- The 'Link to Detailed Job Page' value (lines 138-149). -/
def linkField (base : String) (e : Node) : String :=
  match findAnchorHref e with
  | some a => absolutize base ((a.attr "href").getD "")
  | none => "Not available"

/-- One extracted record; the script stores it as a dict with exactly these
four keys, all set on every successful path. -/
structure JobRecord where
  jobTitle : String    -- 'Job Title'
  location : String    -- 'Location'
  postDate : String    -- 'Post/Publish Date'
  link : String        -- 'Link to Detailed Job Page'
deriving DecidableEq, Repr

/-- `extract_job_info` (lines 87-151), the non-raising body: the title comes
from the selector chain, falling back to the first anchor's text; with no
title element and no anchor the function returns `None`. -/
def extract_job_info (e : Node) (base : String := "https://www.ibps.in") :
    Option JobRecord :=
  match titleElem e with
  | some t =>
      some { jobTitle := getTextStrip t, location := locationField e,
             postDate := dateField e, link := linkField base e }
  | none =>
      match findTag e "a" with
      | some a =>
          some { jobTitle := getTextStrip a, location := locationField e,
                 postDate := dateField e, link := linkField base e }
      | none => none

/-- `extract_job_info` with its `try/except` wrapper (lines 153-155): a
raised exception, modelled by the `raised` flag, makes the call return
`None`. -/
def extract_job_info_caught (raised : Bool) (e : Node)
    (base : String := "https://www.ibps.in") : Option JobRecord :=
  if raised then none else extract_job_info e base

/-! ## The scraper loop, filter, deduplication (`scrape_ibps_jobs`) -/

/-- The exclusion phrase list of line 230. -/
def exclude_keywords : List String :=
  ["view all", "all", "recruitment exams", "personnel selection services"]

/-- The per-element body of the extraction loop (lines 232-240): extract,
require a truthy title, drop titles containing an exclusion phrase
(checked on the lower-cased, stripped title) and titles of length 100 or
more.  `raised` tells whether extraction of this element raised. -/
def loopBody (raised : Bool) (base : String) (e : Node) : Option JobRecord :=
  match extract_job_info_caught raised e base with
  | none => none
  | some r =>
      if r.jobTitle ≠ "" then
        if !(exclude_keywords.any fun k => substrOf k (pyStrip (pyLower r.jobTitle))) then
          if r.jobTitle.length < 100 then some r else none
        else none
      else none

/-- The extraction loop over all candidate elements; `raised e` models
whether extraction raised on element `e`. -/
def collectJobs (raised : Node → Bool) (base : String) (es : List Node) :
    List JobRecord :=
  es.filterMap (fun e => loopBody (raised e) base e)

/-- `df.drop_duplicates(subset=['Job Title', 'Link to Detailed Job Page'],
keep='first')` (line 258): keep a record when its (title, link) pair has
not been seen before. -/
def dropDuplicates : List JobRecord → List (String × String) → List JobRecord
  | [], _ => []
  | r :: rs, seen =>
      if (r.jobTitle, r.link) ∈ seen then dropDuplicates rs seen
      else r :: dropDuplicates rs ((r.jobTitle, r.link) :: seen)

/-- The tail of `scrape_ibps_jobs` (lines 229-266) given the candidate
listing elements: run the extraction loop, and if no job survived return
without writing (`none`); otherwise deduplicate and write the rows
(`some rows`). -/
def scrape_ibps_jobs (raised : Node → Bool) (base : String) (es : List Node) :
    Option (List JobRecord) :=
  let jobs := collectJobs raised base es
  if jobs = [] then none else some (dropDuplicates jobs [])

/-! ## The fetcher (`get_page_content`) -/

/-- Outcome of one `requests.get` + `raise_for_status`, as the script
distinguishes them: success with a parsed page, an
`requests.exceptions.SSLError`, or any other `requests.RequestException`
(connection errors, timeouts, HTTP error statuses). -/
inductive FetchOutcome where
  | ok : Node → FetchOutcome
  | sslError : FetchOutcome
  | reqError : FetchOutcome

/-- What a call to `get_page_content` did: the returned document (or
`None`), the verification flag of each request issued in order, and
whether the disable-verification warning was printed. -/
structure FetchTrace where
  result : Option Node
  attempts : List Bool
  sslWarning : Bool

/-- `get_page_content` (lines 31-74) against a network `net` mapping the
verification flag of a request to its outcome.  The first request verifies
exactly when `verify_ssl` is set (certifi only changes the CA bundle).  An
`SSLError` with verification enabled triggers one retry with verification
disabled after printing the warning; any failure of the retry, and any
other failure of the first request, yields `None`. -/
def get_page_content (verify_ssl : Bool) (net : Bool → FetchOutcome) :
    FetchTrace :=
  match net verify_ssl with
  | .ok doc => ⟨some doc, [verify_ssl], false⟩
  | .sslError =>
      if verify_ssl then
        match net false with
        | .ok doc => ⟨some doc, [verify_ssl, false], true⟩
        | _ => ⟨none, [verify_ssl, false], true⟩
      else ⟨none, [verify_ssl], false⟩
  | .reqError => ⟨none, [verify_ssl], false⟩

/-! ## Helper lemmas -/

/-- Every successful extraction fills Location, Post/Publish Date and Link
from the corresponding field chains (both the selector-chain and the
anchor-fallback title paths build the same other three fields). -/
theorem extract_fields (e : Node) (base : String) (r : JobRecord)
    (h : extract_job_info e base = some r) :
    r.location = locationField e ∧ r.postDate = dateField e ∧
      r.link = linkField base e := by
  unfold extract_job_info at h
  cases ht : titleElem e with
  | some t =>
      rw [ht] at h
      injection h with h
      subst h
      exact ⟨rfl, rfl, rfl⟩
  | none =>
      rw [ht] at h
      cases ha : findTag e "a" with
      | some a =>
          rw [ha] at h
          injection h with h
          subst h
          exact ⟨rfl, rfl, rfl⟩
      | none => rw [ha] at h; cases h

/-- A string beginning with `http` does not begin with `/`. -/
theorem startswith_http_not_slash (s : String)
    (h : pyStartswith s "http" = true) : pyStartswith s "/" = false := by
  unfold pyStartswith at h ⊢
  have h4 : "http".data = ['h', 't', 't', 'p'] := rfl
  have h1 : "/".data = ['/'] := rfl
  rw [h4] at h
  rw [h1]
  cases hd : s.data with
  | nil => rw [hd] at h; simp [List.isPrefixOf] at h
  | cons c rest =>
      rw [hd] at h
      simp [List.isPrefixOf] at h ⊢
      intro hc
      subst hc
      simp at h

/-! ## Example inputs used by the witnesses -/

/-- A listing with an `h4` title, a dated span and a relative anchor. -/
def egListing : Node :=
  .elem "div" [] ["job-item"]
    [ .elem "h4" [] [] [.text " CRP Clerks XIV "],
      .elem "span" [] ["post-date"] [.text "01/02/2024"],
      .elem "a" [("href", "/crp-clerks")] [] [.text "Apply"] ]

/-- The record `extract_job_info` produces for `egListing`. -/
def egListingRec : JobRecord :=
  { jobTitle := "CRP Clerks XIV", location := "Not specified",
    postDate := "01/02/2024", link := "https://www.ibps.in/crp-clerks" }

/-- A listing whose date comes from a `time` tag with a `datetime`
attribute. -/
def egDated : Node :=
  .elem "li" [] []
    [ .elem "h3" [] [] [.text "Officer Recruitment"],
      .elem "time" [("datetime", "2024-02-01")] [] [.text "1 Feb 2024"] ]

/-- The record `extract_job_info` produces for `egDated`. -/
def egDatedRec : JobRecord :=
  { jobTitle := "Officer Recruitment", location := "Not specified",
    postDate := "2024-02-01", link := "Not available" }

/-- A bare listing: a title but no location, date or link markers. -/
def egPlain : Node :=
  .elem "div" [] [] [.elem "h2" [] [] [.text "Specialist Officers"]]

/-- The record `extract_job_info` produces for `egPlain`. -/
def egPlainRec : JobRecord :=
  { jobTitle := "Specialist Officers", location := "Not specified",
    postDate := "Not specified", link := "Not available" }

example : extract_job_info egListing "https://www.ibps.in" = some egListingRec := by decide
example : extract_job_info egDated "https://www.ibps.in" = some egDatedRec := by decide
example : extract_job_info egPlain "https://www.ibps.in" = some egPlainRec := by decide

/-! ## Claim theorems -/

/-- C1: when the title selector chain (`h4`, then `h3`, then `h2`, then an
`a` and finally a `span` with a title/heading/name class — `titleElem`)
finds a tag, the extracted record's 'Job Title' is that tag's
`get_text(strip=True)`. -/
theorem extract_title_from_selector (e : Node) (base : String) (t : Node)
    (h : titleElem e = some t) :
    ∃ r, extract_job_info e base = some r ∧ r.jobTitle = getTextStrip t := by
  unfold extract_job_info
  rw [h]
  exact ⟨_, rfl, rfl⟩

theorem extract_title_from_selector_witness :
    titleElem egListing = some (.elem "h4" [] [] [.text " CRP Clerks XIV "]) ∧
    ∃ r, extract_job_info egListing "https://www.ibps.in" = some r ∧
      r.jobTitle = getTextStrip (.elem "h4" [] [] [.text " CRP Clerks XIV "]) :=
  ⟨rfl, extract_title_from_selector egListing "https://www.ibps.in" _ rfl⟩

/-- C4: when no location-classed `span` or `div` and no Location/City/Place
text node is found, the extracted record's 'Location' is
`'Not specified'`. -/
theorem missing_location_markers (e : Node) (base : String) (r : JobRecord)
    (h1 : findTagClass e "span" locationWords = none)
    (h2 : findTagClass e "div" locationWords = none)
    (h3 : findString e (fun s => locationTextWords.any (fun w => subCI w s)) = none)
    (hr : extract_job_info e base = some r) :
    r.location = "Not specified" := by
  rw [(extract_fields e base r hr).1]
  unfold locationField locationFound
  rw [h1, h2, h3]
  rfl

theorem missing_location_markers_witness :
    findTagClass egListing "span" locationWords = none ∧
    findTagClass egListing "div" locationWords = none ∧
    findString egListing (fun s => locationTextWords.any (fun w => subCI w s)) = none ∧
    egListingRec.location = "Not specified" :=
  ⟨rfl, rfl, rfl,
   missing_location_markers egListing "https://www.ibps.in" egListingRec rfl rfl rfl (by decide)⟩

/-- C5: the link comes from the first href-carrying anchor; an href
beginning with `/` becomes `base_url + link`, an href beginning with
`http` is kept unchanged, and any other href becomes
`base_url + '/' + link`. -/
theorem relative_link_absolutized (e : Node) (base : String) (a : Node)
    (href : String) (r : JobRecord)
    (ha : findAnchorHref e = some a) (hh : a.attr "href" = some href)
    (hr : extract_job_info e base = some r) :
    (pyStartswith href "/" = true → r.link = base ++ href) ∧
    (pyStartswith href "http" = true → r.link = href) ∧
    (pyStartswith href "/" = false → pyStartswith href "http" = false →
      r.link = base ++ "/" ++ href) := by
  have hlink : r.link = absolutize base href := by
    rw [(extract_fields e base r hr).2.2]
    unfold linkField
    rw [ha]
    show absolutize base ((a.attr "href").getD "") = absolutize base href
    rw [hh]
    rfl
  refine ⟨fun h => ?_, fun h => ?_, fun h1 h2 => ?_⟩
  · rw [hlink]; simp [absolutize, h]
  · rw [hlink]; simp [absolutize, startswith_http_not_slash href h, h]
  · rw [hlink]; simp [absolutize, h1, h2]

theorem relative_link_absolutized_witness :
    findAnchorHref egListing = some (.elem "a" [("href", "/crp-clerks")] [] [.text "Apply"]) ∧
    pyStartswith "/crp-clerks" "/" = true ∧
    egListingRec.link = "https://www.ibps.in" ++ "/crp-clerks" :=
  ⟨rfl, rfl,
   (relative_link_absolutized egListing "https://www.ibps.in"
      (.elem "a" [("href", "/crp-clerks")] [] [.text "Apply"]) "/crp-clerks"
      egListingRec rfl rfl (by decide)).1 rfl⟩

/-- C9: when the date selector chain matches a tag whose `datetime`
attribute is non-empty, the 'Post/Publish Date' is that attribute value,
overriding the tag's text; when no date selector matches, it is
`'Not specified'`. -/
theorem datetime_overrides_text :
    (∀ e base n v r, dateFound e = some (Found.tag n) →
        n.attr "datetime" = some v → v ≠ "" →
        extract_job_info e base = some r → r.postDate = v) ∧
    (∀ e base r, dateFound e = none → extract_job_info e base = some r →
        r.postDate = "Not specified") := by
  constructor
  · intro e base n v r hd hv hne hr
    rw [(extract_fields e base r hr).2.1]
    unfold dateField
    rw [hd]
    show (match n.attr "datetime" with
          | some v => if v = "" then getTextStrip n else v
          | none => getTextStrip n) = v
    rw [hv]
    exact if_neg hne
  · intro e base r hd hr
    rw [(extract_fields e base r hr).2.1]
    unfold dateField
    rw [hd]

theorem datetime_overrides_text_witness :
    egDatedRec.postDate = "2024-02-01" ∧ egPlainRec.postDate = "Not specified" :=
  ⟨datetime_overrides_text.1 egDated "https://www.ibps.in"
      (.elem "time" [("datetime", "2024-02-01")] [] [.text "1 Feb 2024"])
      "2024-02-01" egDatedRec rfl rfl (by decide) (by decide),
   datetime_overrides_text.2 egPlain "https://www.ibps.in" egPlainRec rfl (by decide)⟩

/-- C10: the wrapped extraction returns `None` exactly on a raised
exception or an element with neither a recognizable title element nor any
anchor; every successful record has all four fields, with the link
`'Not available'` when the element has no href-carrying anchor. -/
theorem extract_none_characterization :
    (∀ raised e base, extract_job_info_caught raised e base = none ↔
        raised = true ∨ (titleElem e = none ∧ findTag e "a" = none)) ∧
    (∀ e base r, extract_job_info e base = some r → findAnchorHref e = none →
        r.link = "Not available") := by
  constructor
  · intro raised e base
    unfold extract_job_info_caught extract_job_info
    cases raised with
    | true => simp
    | false =>
        cases ht : titleElem e with
        | some t => simp [ht]
        | none =>
            cases ha : findTag e "a" with
            | some a => simp [ht, ha]
            | none => simp [ht, ha]
  · intro e base r hr ha
    rw [(extract_fields e base r hr).2.2]
    unfold linkField
    rw [ha]

/-- A record produced by the loop body has a truthy title, no exclusion
phrase in its lower-cased stripped title, and a title shorter than 100
characters. -/
theorem loopBody_some (raised : Bool) (base : String) (e : Node)
    (r : JobRecord) (h : loopBody raised base e = some r) :
    r.jobTitle ≠ "" ∧
    (exclude_keywords.any fun k => substrOf k (pyStrip (pyLower r.jobTitle))) = false ∧
    r.jobTitle.length < 100 := by
  unfold loopBody at h
  cases hx : extract_job_info_caught raised e base with
  | none => rw [hx] at h; cases h
  | some r0 =>
      rw [hx] at h
      have h' : (if r0.jobTitle ≠ "" then
          if (!(exclude_keywords.any fun k =>
                substrOf k (pyStrip (pyLower r0.jobTitle)))) = true then
            if r0.jobTitle.length < 100 then some r0 else none
          else none
        else none) = some r := h
      by_cases h1 : r0.jobTitle ≠ ""
      · rw [if_pos h1] at h'
        by_cases h2 : (!(exclude_keywords.any fun k =>
            substrOf k (pyStrip (pyLower r0.jobTitle)))) = true
        · rw [if_pos h2] at h'
          by_cases h3 : r0.jobTitle.length < 100
          · rw [if_pos h3] at h'
            injection h' with h'
            subst h'
            exact ⟨h1, by simpa using h2, h3⟩
          · rw [if_neg h3] at h'; cases h'
        · rw [if_neg h2] at h'; cases h'
      · rw [if_neg h1] at h'; cases h'

/-- C2: every record appended by the extraction loop has a lower-cased,
stripped title containing none of the exclusion phrases, and a title
shorter than 100 characters (records violating either are dropped). -/
theorem collected_records_pass_filter (raised : Node → Bool) (base : String)
    (es : List Node) (r : JobRecord) (h : r ∈ collectJobs raised base es) :
    (∀ k ∈ exclude_keywords, substrOf k (pyStrip (pyLower r.jobTitle)) = false) ∧
    r.jobTitle.length < 100 := by
  unfold collectJobs at h
  rw [List.mem_filterMap] at h
  obtain ⟨e, -, hb⟩ := h
  obtain ⟨-, h2, h3⟩ := loopBody_some (raised e) base e r hb
  refine ⟨?_, h3⟩
  intro k hk
  simpa using (List.any_eq_false.mp h2) k hk

theorem collected_records_pass_filter_witness :
    (∀ k ∈ exclude_keywords,
        substrOf k (pyStrip (pyLower egListingRec.jobTitle)) = false) ∧
    egListingRec.jobTitle.length < 100 :=
  collected_records_pass_filter (fun _ => false) "https://www.ibps.in"
    [egListing] egListingRec (by decide)

/-- Records returned by `dropDuplicates` carry keys outside `seen`. -/
theorem dropDuplicates_not_seen (l : List JobRecord) :
    ∀ (seen : List (String × String)) (x : JobRecord),
      x ∈ dropDuplicates l seen → (x.jobTitle, x.link) ∉ seen := by
  induction l with
  | nil => intro seen x hx; cases hx
  | cons r rs ih =>
      intro seen x hx
      by_cases hs : (r.jobTitle, r.link) ∈ seen
      · simp only [dropDuplicates] at hx
        rw [if_pos hs] at hx
        exact ih seen x hx
      · simp only [dropDuplicates] at hx
        rw [if_neg hs] at hx
        rcases List.mem_cons.mp hx with h | h
        · subst h; exact hs
        · intro hmem
          exact (ih _ x h) (List.mem_cons_of_mem _ hmem)

/-- `dropDuplicates` output has pairwise distinct (title, link) keys. -/
theorem dropDuplicates_pairwise (l : List JobRecord) :
    ∀ seen, (dropDuplicates l seen).Pairwise
      (fun a b => (a.jobTitle, a.link) ≠ (b.jobTitle, b.link)) := by
  induction l with
  | nil => intro seen; exact List.Pairwise.nil
  | cons r rs ih =>
      intro seen
      by_cases hs : (r.jobTitle, r.link) ∈ seen
      · simp only [dropDuplicates]
        rw [if_pos hs]
        exact ih seen
      · simp only [dropDuplicates]
        rw [if_neg hs]
        refine List.Pairwise.cons ?_ (ih _)
        intro b hb he
        exact (dropDuplicates_not_seen rs _ b hb)
          (by rw [← he]; exact List.mem_cons_self _ _)

/-- C3: any output list of rows actually written by the scraper has no two
records sharing both the title and the link. -/
theorem output_no_duplicate_pairs (raised : Node → Bool) (base : String)
    (es : List Node) (out : List JobRecord)
    (h : scrape_ibps_jobs raised base es = some out) :
    out.Pairwise (fun a b => (a.jobTitle, a.link) ≠ (b.jobTitle, b.link)) := by
  simp only [scrape_ibps_jobs] at h
  split at h
  · cases h
  · injection h with h
    subst h
    exact dropDuplicates_pairwise _ []

theorem output_no_duplicate_pairs_witness :
    List.Pairwise
      (fun a b : JobRecord => (a.jobTitle, a.link) ≠ (b.jobTitle, b.link))
      [egListingRec] :=
  output_no_duplicate_pairs (fun _ => false) "https://www.ibps.in"
    [egListing, egListing] [egListingRec] (by decide)

/-- C6: an SSL error with verification enabled triggers exactly one retry
with verification disabled, with the warning printed; a failing retry
yields `None`; any non-SSL failure yields `None` with no retry. -/
theorem ssl_retry_behavior (net : Bool → FetchOutcome) :
    (net true = FetchOutcome.sslError →
       (get_page_content true net).attempts = [true, false] ∧
       (get_page_content true net).sslWarning = true ∧
       ((∀ d, net false ≠ FetchOutcome.ok d) →
         (get_page_content true net).result = none)) ∧
    (∀ v : Bool, net v = FetchOutcome.reqError →
       (get_page_content v net).result = none ∧
       (get_page_content v net).attempts = [v]) := by
  constructor
  · intro hssl
    unfold get_page_content
    rw [hssl]
    cases hf : net false with
    | ok d => exact ⟨rfl, rfl, fun hno => absurd rfl (hno d)⟩
    | sslError => exact ⟨rfl, rfl, fun _ => rfl⟩
    | reqError => exact ⟨rfl, rfl, fun _ => rfl⟩
  · intro v hreq
    unfold get_page_content
    rw [hreq]
    exact ⟨rfl, rfl⟩

/-- A network on which the verified request hits an SSL error and the
unverified one a connection error. -/
def netEg : Bool → FetchOutcome :=
  fun v => if v then FetchOutcome.sslError else FetchOutcome.reqError

theorem ssl_retry_behavior_witness :
    (get_page_content true netEg).attempts = [true, false] ∧
    (get_page_content true netEg).sslWarning = true ∧
    (get_page_content true netEg).result = none ∧
    (get_page_content false netEg).result = none ∧
    (get_page_content false netEg).attempts = [false] := by
  obtain ⟨h1, h2, h3⟩ := (ssl_retry_behavior netEg).1 rfl
  obtain ⟨h4, h5⟩ := (ssl_retry_behavior netEg).2 false rfl
  exact ⟨h1, h2, h3 (fun d h => FetchOutcome.noConfusion h), h4, h5⟩

/-- C7: a raised extraction on one element makes `extract_job_info` return
`None` for it, and the loop result only skips that element — the rest of
the batch is still processed. -/
theorem extraction_failure_local (raised : Node → Bool) (base : String)
    (es1 es2 : List Node) (e : Node) (h : raised e = true) :
    extract_job_info_caught (raised e) e base = none ∧
    collectJobs raised base (es1 ++ e :: es2) =
      collectJobs raised base es1 ++ collectJobs raised base es2 := by
  have hnone : extract_job_info_caught (raised e) e base = none := by
    unfold extract_job_info_caught
    rw [h]
    rfl
  refine ⟨hnone, ?_⟩
  have hbody : loopBody (raised e) base e = none := by
    unfold loopBody
    rw [hnone]
  unfold collectJobs
  simp only [List.filterMap_append, List.filterMap_cons, hbody]

theorem extraction_failure_local_witness :
    extract_job_info_caught ((fun n : Node => n.tagName == some "li") egDated)
      egDated "https://www.ibps.in" = none ∧
    collectJobs (fun n : Node => n.tagName == some "li") "https://www.ibps.in"
      ([egListing] ++ egDated :: [egPlain]) =
      collectJobs (fun n : Node => n.tagName == some "li") "https://www.ibps.in"
        [egListing] ++
      collectJobs (fun n : Node => n.tagName == some "li") "https://www.ibps.in"
        [egPlain] :=
  extraction_failure_local (fun n => n.tagName == some "li") "https://www.ibps.in"
    [egListing] [egPlain] egDated (by decide)

/-- C8: the scraper writes no output exactly when the filtered job list is
empty; rows are written only when at least one record survives the
filter. -/
theorem empty_jobs_no_output (raised : Node → Bool) (base : String)
    (es : List Node) :
    scrape_ibps_jobs raised base es = none ↔
      collectJobs raised base es = [] := by
  by_cases h : collectJobs raised base es = []
  · simp [scrape_ibps_jobs, h]
  · simp [scrape_ibps_jobs, h]

theorem extract_none_characterization_witness :
    (extract_job_info_caught false (.elem "p" [] [] [.text "hi"]) "https://www.ibps.in" = none ↔
      ((false : Bool) = true ∨ (titleElem (.elem "p" [] [] [.text "hi"]) = none ∧
        findTag (.elem "p" [] [] [.text "hi"]) "a" = none))) ∧
    egPlainRec.link = "Not available" :=
  ⟨extract_none_characterization.1 false (.elem "p" [] [] [.text "hi"]) "https://www.ibps.in",
   extract_none_characterization.2 egPlain "https://www.ibps.in" egPlainRec (by decide) rfl⟩
